import Mathlib

/-!
Verification of the CLEANSACMC soft actor-critic engine
(`src/custom_algorithms/cleansacmc/cleansacmc.py`).

Conventions of the embedding:
* Tensor arithmetic of the training loop is modelled over `ℚ` (exact
  arithmetic; the rounding of the numeric runtime is outside the scope of the
  algorithm design). The policy network itself (`class Actor`) uses the
  transcendental functions `tanh`, `exp` and `log`, so its embedding lives
  over `ℝ`.
* A batch axis becomes a `List`; per-dimension data becomes a list of scalars.
* Code external to the repository (the torch optimizers and autodiff, the
  gymnasium action-space sampler, the logger, the replay buffer) enters as
  explicit function parameters; the dataflow, the stage ordering and the
  arithmetic of the engine itself are translated from the source file.
* Logging calls (`logger.record`, `logger.record_mean`) are value-irrelevant
  side channels and are dropped.
-/

namespace CleanSacMC

/-- Ternary pointwise zip, the list form of elementwise tensor arithmetic over
three equally indexed tensors. -/
def zipWith3 (f : α → β → γ → δ) : List α → List β → List γ → List δ
  | a :: as, b :: bs, c :: cs => f a b c :: zipWith3 f as bs cs
  | _, _, _ => []

/-! ### The probabilistic policy (`class Actor`, lines 22 to 74) -/

noncomputable section ActorModel

/-- Constant `LOG_STD_MAX = 2` (line 18). -/
def LOG_STD_MAX : ℝ := 2

/-- Constant `LOG_STD_MIN = -20` (line 19). -/
def LOG_STD_MIN : ℝ := -20

/-- The `1e-6` constant of the tanh bound correction (line 71). -/
def tanhEps : ℝ := 1 / 1000000

/-- One `nn.Linear` layer: rows of the weight matrix and the bias vector. -/
structure LinearLayer where
  weight : List (List ℝ)
  bias : List ℝ

/-- Dot product of two vectors. -/
def dot (r x : List ℝ) : ℝ := (List.zipWith (fun a b => a * b) r x).sum

/-- Forward pass of `nn.Linear`: `W x + b`. -/
def LinearLayer.apply (L : LinearLayer) (x : List ℝ) : List ℝ :=
  List.zipWith (fun row b => dot row x + b) L.weight L.bias

/-- Elementwise `F.relu`. -/
def reluVec (v : List ℝ) : List ℝ := v.map (fun t => max t 0)

/-- Elementwise `torch.clamp(t, lo, hi) = min (max t lo) hi` on one scalar. -/
def clampR (lo hi t : ℝ) : ℝ := min (max t lo) hi

/-- Per-dimension `action_scale = (high - low) / 2` registered by
`Actor.__init__` (lines 37 to 43). -/
def actionScaleOf (high low : List ℝ) : List ℝ :=
  List.zipWith (fun h l => (h - l) / 2) high low

/-- Per-dimension `action_bias = (high + low) / 2` registered by
`Actor.__init__` (lines 44 to 50). -/
def actionBiasOf (high low : List ℝ) : List ℝ :=
  List.zipWith (fun h l => (h + l) / 2) high low

/-- The policy network: three hidden layers, the mean and log-std heads, and the
action rescaling buffers (lines 22 to 50). -/
structure Actor where
  fc1 : LinearLayer
  fc2 : LinearLayer
  fc3 : LinearLayer
  fc_mean : LinearLayer
  fc_logstd : LinearLayer
  action_scale : List ℝ
  action_bias : List ℝ

/-- Forward pass of the policy (`Actor.forward`, lines 52 to 60): three ReLU
layers, then the mean head and the clamped log-std head. -/
def Actor.forward (A : Actor) (x : List ℝ) : List ℝ × List ℝ :=
  let h1 := reluVec (A.fc1.apply x)
  let h2 := reluVec (A.fc2.apply h1)
  let h3 := reluVec (A.fc3.apply h2)
  (A.fc_mean.apply h3, (A.fc_logstd.apply h3).map (clampR LOG_STD_MIN LOG_STD_MAX))

/-- Library semantics of `torch.distributions.Normal(μ, σ).log_prob x`:
`-(x - μ)² / (2 σ²) - log σ - log √(2π)`. -/
def normalLogProb (μ σ x : ℝ) : ℝ :=
  -((x - μ) ^ 2) / (2 * σ ^ 2) - Real.log σ - Real.log (Real.sqrt (2 * Real.pi))

/-- Embedding of `Actor.get_action` (lines 62 to 74) at one observation, with
the reparameterization noise `eps` made explicit (`x_t = mean + std * ε`).
Returns the bounded action vector and the scalar summed log-probability. -/
def Actor.get_action (A : Actor) (x eps : List ℝ) : List ℝ × ℝ :=
  let mean := (A.forward x).1
  let log_std := (A.forward x).2
  let std := log_std.map Real.exp
  let x_t := zipWith3 (fun m s e => m + s * e) mean std eps
  let y_t := x_t.map Real.tanh
  let action := zipWith3 (fun y sc b => y * sc + b) y_t A.action_scale A.action_bias
  let log_prob := zipWith3 (fun m s xt => normalLogProb m s xt) mean std x_t
  let log_prob2 := zipWith3 (fun lp sc y => lp - Real.log (sc * (1 - y ^ 2) + tanhEps))
    log_prob A.action_scale y_t
  (action, log_prob2.sum)

/-- Mathematical log-density of a Gaussian `N(μ, σ²)` at `x`, written in the
textbook form used by the specification: `-(1/2) log(2π σ²) - (x - μ)²/(2σ²)`. -/
def gaussLogDensity (μ σ x : ℝ) : ℝ :=
  -(1 / 2) * Real.log (2 * Real.pi * σ ^ 2) - (x - μ) ^ 2 / (2 * σ ^ 2)

/-- The log-probability as the specification words it (section 4.1): the
Gaussian log-density of the raw sample, minus the change-of-variables
correction `log(scale (1 - tanh(x)²) + ε)` per dimension, summed across action
dimensions to one scalar per sample. -/
def specLogProb (A : Actor) (x eps : List ℝ) : ℝ :=
  let mean := (A.forward x).1
  let std := (A.forward x).2.map Real.exp
  let x_t := zipWith3 (fun m s e => m + s * e) mean std eps
  let densities := zipWith3 gaussLogDensity mean std x_t
  let corrections := List.zipWith
    (fun sc xt => Real.log (sc * (1 - Real.tanh xt ^ 2) + tanhEps)) A.action_scale x_t
  (List.zipWith (fun d c => d - c) densities corrections).sum

end ActorModel

/-! ### The update orchestrator (`CLEANSACMC.train`, lines 357 to 432)

The training loop never inspects the components of an observation or an
action, so both are opaque scalars here. The critic ensemble parameters are a
flat vector (the flattened torch state dict), and the forward passes together
with the Adam optimizer steps of the external autodiff runtime are explicit
function parameters (`Ext` below): every theorem about the loop holds for
every choice of them. -/

/-- Observations after `flatten_obs` (opaque at the level of the loop). -/
abbrev Obs := ℚ

/-- One action (opaque at the level of the loop). -/
abbrev Act := ℚ

/-- The stochastic policy as the training loop sees it: `actor.get_action` at
one observation, the noise of the draw already folded in, returning the action
and its log-probability. -/
abbrev ActorFn := Obs → Act × ℚ

/-- Mean of a list, the model of `tensor.mean()`. -/
def listMean (l : List ℚ) : ℚ := l.sum / l.length

/-- Minimum across the leading (ensemble) axis of a stacked tensor, the model
of `torch.min(stacked, dim=0).values`: elementwise minimum of the member
rows. -/
def ensembleMin : List (List ℚ) → List ℚ
  | [] => []
  | m :: ms => ms.foldl (fun acc l => List.zipWith min acc l) m

/-- Modelled from the spec: the `MorphologicalNetworks` module (imported from
`.mc`, a file that is not part of `src/`). Per section 4.4 it maps an
(observation, action) pair to two probabilistic next-observation predictors;
the repository code only ever consumes (a) the per-feature Kullback-Leibler
divergence between the two predicted distributions and (b) the summed negative
log-likelihood of a next observation under both, so the model carries exactly
those two observables. -/
structure MCNet where
  kl : Obs → Act → List ℚ
  nll : Obs → Act → Obs → ℚ

/-- One sampled replay batch (`replay_buffer.sample(batch_size)`), observations
already flattened, fields aligned samplewise. -/
structure Batch where
  observations : List Obs
  actions : List Act
  rewards : List ℚ
  next_observations : List Obs
  dones : List ℚ

/-- Hyperparameters of the step, immutable after construction. -/
structure Cfg where
  tau : ℚ
  gamma : ℚ
  reward_eta : ℚ
  entAuto : Bool
  ent_coef_fixed : ℚ
  target_entropy : ℚ

/-- The external numeric runtime: the critic ensemble forward pass
(`CriticEnsemble.forward`, a member-major stack of per-sample values), the
four Adam optimizer steps (a loss value and the current parameters give the
new parameters), and `torch.exp` on the entropy scalar. -/
structure Ext where
  Qforward : List ℚ → List Obs → List Act → List (List ℚ)
  expS : ℚ → ℚ
  mcStep : ℚ → MCNet → MCNet
  entStep : ℚ → ℚ → ℚ
  criticStep : ℚ → List ℚ → List ℚ
  actorStep : ℚ → ActorFn → ActorFn

/-- Mutable engine state touched by one training step. -/
structure TrainState where
  actor : ActorFn
  critic : List ℚ
  critic_target : List ℚ
  mc_network : MCNet
  log_ent_coef : ℚ
  n_updates : ℕ

/-- Embedding of `CLEANSACMC.calc_reward` (lines 336 to 355): the per-sample
mean over the trailing feature axis of `kl_divergence(forward, world)`, scaled
by `mc["reward_eta"]` and added to the extrinsic rewards. Used identically by
the rollout call site and by stage 3 of the training step. -/
def calcReward (net : MCNet) (eta : ℚ) (observations : List Obs) (actions : List Act)
    (e_rewards : List ℚ) : List ℚ :=
  let _err := List.zipWith (fun o a => listMean (net.kl o a)) observations actions
  let i_rewards := _err.map (fun e => e * eta)
  List.zipWith (fun e i => e + i) e_rewards i_rewards

/-- The online reward call site inside `collect_rollout` (lines 290 to 295):
`calc_reward(flatten_obs(new_obs), actions, rewards, is_executing=True)`, the
same composition applied to the post-step observation and the executed
action. -/
def rolloutReward (net : MCNet) (eta : ℚ) (new_obs : Obs) (action : Act)
    (reward : ℚ) : List ℚ :=
  calcReward net eta [new_obs] [action] [reward]

/-- Embedding of `CLEANSACMC.train_mc` (lines 317 to 334): batch mean of the
summed negative log-likelihood of the next observation under the two
predictors, then one optimizer step on the curiosity model. -/
def train_mc (E : Ext) (net : MCNet) (observations next_observations : List Obs)
    (actions : List Act) : MCNet :=
  let loss := listMean (zipWith3 (fun o no a => net.nll o a no)
    observations next_observations actions)
  E.mcStep loss net

/-- Stage 2 (lines 368 to 381): in auto mode, the entropy-coefficient loss,
one optimizer step on `log_ent_coef`, and `exp` of the stepped parameter as
the coefficient used by the rest of the step; in fixed mode the parameter is
untouched and the fixed coefficient is used. Returns (new `log_ent_coef`,
`ent_coef`). -/
def entStage (E : Ext) (C : Cfg) (s : TrainState) (b : Batch) : ℚ × ℚ :=
  if C.entAuto then
    let log_pi := b.observations.map (fun o => (s.actor o).2)
    let ent_coef_loss := listMean (log_pi.map (fun lp => -s.log_ent_coef * (lp + C.target_entropy)))
    let log_ent := E.entStep ent_coef_loss s.log_ent_coef
    (log_ent, E.expS log_ent)
  else
    (s.log_ent_coef, C.ent_coef_fixed)

/-- Stage 3: the next actions freshly sampled by the policy at the next
observations (line 385). -/
def nextStateActions (s : TrainState) (b : Batch) : List Act :=
  b.next_observations.map (fun o => (s.actor o).1)

/-- Stage 3: the log-probabilities of those next actions (line 385). -/
def nextStateLogPi (s : TrainState) (b : Batch) : List ℚ :=
  b.next_observations.map (fun o => (s.actor o).2)

/-- Stage 3 (lines 388 to 392): ensemble minimum of the target critic at
(next observation, next action), minus the entropy-weighted next
log-probability (the soft value). -/
def softValue (E : Ext) (C : Cfg) (s : TrainState) (b : Batch) : List ℚ :=
  let min_crit_next := ensembleMin
    (E.Qforward s.critic_target b.next_observations (nextStateActions s b))
  List.zipWith (fun m lp => m - (entStage E C s b).2 * lp) min_crit_next (nextStateLogPi s b)

/-- The stage-3 reward composition call (line 394):
`self.calc_reward(observations, next_state_actions, replay_data.rewards)`.
The first argument is the current observations of the batch, and the curiosity
model is the one already stepped by stage 1. -/
def trainRewards (E : Ext) (C : Cfg) (s : TrainState) (b : Batch) : List ℚ :=
  calcReward (train_mc E s.mc_network b.observations b.next_observations b.actions)
    C.reward_eta b.observations (nextStateActions s b) b.rewards

/-- Stage 3 (lines 397 to 402): the bootstrapped target
`reward + (1 - done) · γ · soft_value`. -/
def nextQValue (E : Ext) (C : Cfg) (s : TrainState) (b : Batch) : List ℚ :=
  zipWith3 (fun r d v => r + (1 - d) * C.gamma * v)
    (trainRewards E C s b) b.dones (softValue E C s b)

/-- Stage 4 loss (lines 404 to 407): per-member mean squared error against the
target, summed across the ensemble into one scalar. -/
def critLoss (E : Ext) (C : Cfg) (s : TrainState) (b : Batch) : ℚ :=
  ((E.Qforward s.critic b.observations b.actions).map
    (fun mv => listMean (List.zipWith (fun q t => (q - t) ^ 2) mv (nextQValue E C s b)))).sum

/-- Stage 4 (lines 411 to 413): the critic parameters after the optimizer
step on the summed ensemble loss. -/
def criticAfterStep (E : Ext) (C : Cfg) (s : TrainState) (b : Batch) : List ℚ :=
  E.criticStep (critLoss E C s b) s.critic

/-- Stage 5 loss (lines 416 to 418): resample actions at the current
observations, evaluate the (already stepped) critic ensemble, take the
ensemble minimum, and average `ent_coef · log_pi - min_q`. -/
def actorLossOf (E : Ext) (C : Cfg) (s : TrainState) (b : Batch) : ℚ :=
  let pi := b.observations.map (fun o => s.actor o)
  let min_crit_pi := ensembleMin
    (E.Qforward (criticAfterStep E C s b) b.observations (pi.map Prod.fst))
  listMean (List.zipWith (fun p q => (entStage E C s b).2 * p.2 - q) pi min_crit_pi)

/-- Stage 6 (lines 426 to 432): the Polyak update
`t ← (1-τ)·t; t ← t + τ·p`, elementwise `(1-τ)·t + τ·p`. -/
def polyakUpdate (tau : ℚ) (target source : List ℚ) : List ℚ :=
  List.zipWith (fun t p => (1 - tau) * t + tau * p) target source

/-- Embedding of `CLEANSACMC.train` (lines 357 to 432): the full six-stage
update on one sampled batch — curiosity model, entropy coefficient,
bootstrapped target, critic, actor, Polyak target update — in source order,
plus the update counter increment of line 358. -/
def train (E : Ext) (C : Cfg) (s : TrainState) (b : Batch) : TrainState :=
  let mc := train_mc E s.mc_network b.observations b.next_observations b.actions
  let ent := entStage E C s b
  let critic := criticAfterStep E C s b
  let actor := E.actorStep (actorLossOf E C s b) s.actor
  let critic_target := polyakUpdate C.tau s.critic_target critic
  { actor := actor, critic := critic, critic_target := critic_target,
    mc_network := mc, log_ent_coef := ent.1, n_updates := s.n_updates + 1 }

/-! ### Rollout action selection (`collect_rollout`, lines 282 to 287) -/

/-- The action-selection branch of `collect_rollout`: during warm-up
(`num_timesteps < learning_starts`) the action is the draw of the external
`env.action_space.sample()` (with log-probability tensor zero); afterwards the
action comes from the policy via `predict`. -/
def rolloutAction (num_timesteps learning_starts : ℕ) (space_sample : Act)
    (actor : ActorFn) (last_obs : Obs) : Act × ℚ :=
  if num_timesteps < learning_starts then (space_sample, 0) else actor last_obs

/-! ### Persistence (`save` lines 451 to 470, `load` lines 472 to 483,
construction lines 143 to 244) -/

namespace Persist

/-- Immutable constructor arguments (`__init__` keyword arguments). -/
structure Config where
  learning_rate : ℚ
  buffer_size : ℕ
  learning_starts : ℕ
  batch_size : ℕ
  tau : ℚ
  gamma : ℚ
  n_critics : ℕ
  hidden_size : ℕ

/-- The randomly initialized parameter vectors produced by the torch module
constructors inside `_create_actor_critic` (external randomness). -/
structure Init where
  actorInit : List ℚ
  criticInit : List ℚ
  mcInit : List ℚ

/-- The persistent attribute dictionary of a `CLEANSACMC` engine: the
hyperparameters, the four parameter sets (flattened state dicts) and the two
training counters. The live environment, logger and replay buffer are
external collaborators and are not part of the persisted surface. -/
structure Engine where
  learning_rate : ℚ
  buffer_size : ℕ
  learning_starts : ℕ
  batch_size : ℕ
  tau : ℚ
  gamma : ℚ
  n_critics : ℕ
  hidden_size : ℕ
  actor : List ℚ
  critic : List ℚ
  critic_target : List ℚ
  mc_network : List ℚ
  num_timesteps : ℕ
  n_updates : ℕ

/-- Embedding of `__init__` together with `_create_actor_critic` (lines 143 to
244): fresh random parameters for actor, critic and curiosity model, the
target ensemble synchronized to the critic by
`critic_target.load_state_dict(critic.state_dict())` (line 236), and both
counters zeroed (lines 222 to 223). -/
def mkEngine (c : Config) (i : Init) : Engine :=
  let critic := i.criticInit
  { learning_rate := c.learning_rate, buffer_size := c.buffer_size,
    learning_starts := c.learning_starts, batch_size := c.batch_size,
    tau := c.tau, gamma := c.gamma, n_critics := c.n_critics,
    hidden_size := c.hidden_size,
    actor := i.actorInit, critic := critic, critic_target := critic,
    mc_network := i.mcInit, num_timesteps := 0, n_updates := 0 }

/-- The file written by `save` (lines 451 to 470): the attribute dictionary
minus the excluded keys (`logger`, `env`, `num_timesteps`, `_n_updates`,
`_last_obs`, `replay_buffer` and the three live network objects), plus the
state dicts of actor, critic and curiosity model. The target ensemble is not
serialized. -/
structure Checkpoint where
  learning_rate : ℚ
  buffer_size : ℕ
  learning_starts : ℕ
  batch_size : ℕ
  tau : ℚ
  gamma : ℚ
  n_critics : ℕ
  hidden_size : ℕ
  actorSD : List ℚ
  criticSD : List ℚ
  mcSD : List ℚ

/-- Embedding of `CLEANSACMC.save`. -/
def save (e : Engine) : Checkpoint :=
  { learning_rate := e.learning_rate, buffer_size := e.buffer_size,
    learning_starts := e.learning_starts, batch_size := e.batch_size,
    tau := e.tau, gamma := e.gamma, n_critics := e.n_critics,
    hidden_size := e.hidden_size,
    actorSD := e.actor, criticSD := e.critic, mcSD := e.mc_network }

/-- Embedding of `CLEANSACMC.load` (lines 472 to 483): construct a fresh
engine (`cls(env=env, **kwargs)`), overwrite every non-network key of its
dictionary with the checkpoint value, then load the three saved state dicts
into actor, critic and curiosity model. No key of the checkpoint touches
`critic_target`, `num_timesteps` or `n_updates`. -/
def load (ck : Checkpoint) (c : Config) (i : Init) : Engine :=
  let m := mkEngine c i
  { m with
    learning_rate := ck.learning_rate, buffer_size := ck.buffer_size,
    learning_starts := ck.learning_starts, batch_size := ck.batch_size,
    tau := ck.tau, gamma := ck.gamma, n_critics := ck.n_critics,
    hidden_size := ck.hidden_size,
    actor := ck.actorSD, critic := ck.criticSD, mc_network := ck.mcSD }

end Persist

/-! ### Concrete instances used to evaluate the embedding on explicit inputs -/

/-- A concrete curiosity model: the per-feature KL observable at observation
`o` is `[o - 1]` (negative at `o = 0`), the NLL observable is `0`. -/
def mcnet0 : MCNet := { kl := fun o _ => [o - 1], nll := fun _ _ _ => 0 }

/-- A concrete external runtime: one critic member that always outputs `0`,
identity curiosity/entropy/actor optimizer steps, a critic step that adds `1`
to every parameter, and the identity for `exp`. -/
def ext0 : Ext :=
  { Qforward := fun _ os _ => [os.map (fun _ => 0)],
    expS := fun q => q,
    mcStep := fun _ n => n,
    entStep := fun _ q => q,
    criticStep := fun _ p => p.map (fun v => v + 1),
    actorStep := fun _ a => a }

/-- A concrete hyperparameter configuration with `τ = 1/2`, `γ = 1`,
`η = 1` and a fixed entropy coefficient. -/
def cfg0 : Cfg :=
  { tau := 1 / 2, gamma := 1, reward_eta := 1, entAuto := false,
    ent_coef_fixed := 1, target_entropy := -1 }

/-- A concrete engine state: a policy that always plays action `0` with
log-probability `0`, one critic parameter `1`, one target parameter `0`. -/
def st0 : TrainState :=
  { actor := fun _ => (0, 0), critic := [1], critic_target := [0],
    mc_network := mcnet0, log_ent_coef := 0, n_updates := 0 }

/-- A concrete one-sample batch whose current observation `0` differs from its
next observation `1`. -/
def batch0 : Batch :=
  { observations := [0], actions := [0], rewards := [0],
    next_observations := [1], dones := [0] }

/-- A concrete policy network with one observation dimension, hidden size one,
one action dimension, all weights and biases zero, and the rescaling buffers
of the action box `[-1, 1]`. -/
noncomputable def actor0 : Actor :=
  { fc1 := { weight := [[0]], bias := [0] },
    fc2 := { weight := [[0]], bias := [0] },
    fc3 := { weight := [[0]], bias := [0] },
    fc_mean := { weight := [[0]], bias := [0] },
    fc_logstd := { weight := [[0]], bias := [0] },
    action_scale := actionScaleOf [1] [-1],
    action_bias := actionBiasOf [1] [-1] }

/-- A concrete saved engine whose critic parameters `[7]` differ from the
fresh initialization `[0]` used at load time. -/
def engine0 : Persist.Engine :=
  { learning_rate := 3 / 10000, buffer_size := 1000000, learning_starts := 100,
    batch_size := 256, tau := 5 / 1000, gamma := 99 / 100, n_critics := 2,
    hidden_size := 256, actor := [2], critic := [7], critic_target := [5],
    mc_network := [3], num_timesteps := 1000, n_updates := 900 }

/-- The constructor arguments used when reloading `engine0`. -/
def config0 : Persist.Config :=
  { learning_rate := 3 / 10000, buffer_size := 1000000, learning_starts := 100,
    batch_size := 256, tau := 5 / 1000, gamma := 99 / 100, n_critics := 2,
    hidden_size := 256 }

/-- The fresh random initialization drawn when reloading `engine0`; its critic
parameters `[0]` differ from the saved ones `[7]`. -/
def init0 : Persist.Init := { actorInit := [0], criticInit := [0], mcInit := [0] }

/-! ### Helper lemmas -/

theorem zipWith_getD_of_lt {α : Type} (f : α → α → α) (d : α) :
    ∀ (t p : List α) (i : ℕ), i < (List.zipWith f t p).length →
      (List.zipWith f t p).getD i d = f (t.getD i d) (p.getD i d) := by
  intro t
  induction t with
  | nil => intro p i h; simp at h
  | cons a as ih =>
    intro p i h
    cases p with
    | nil => simp at h
    | cons b bs =>
      cases i with
      | zero => rfl
      | succ i =>
        simp only [List.zipWith_cons_cons, List.length_cons] at h
        simpa using ih bs i (by omega)

theorem zipWith3_getD_of_lt {α : Type} (f : α → α → α → α) (d : α) :
    ∀ (as bs cs : List α) (i : ℕ), i < (zipWith3 f as bs cs).length →
      (zipWith3 f as bs cs).getD i d = f (as.getD i d) (bs.getD i d) (cs.getD i d) := by
  intro as
  induction as with
  | nil => intro bs cs i h; simp [zipWith3] at h
  | cons a as ih =>
    intro bs cs i h
    cases bs with
    | nil => simp [zipWith3] at h
    | cons b bs =>
      cases cs with
      | nil => simp [zipWith3] at h
      | cons c cs =>
        cases i with
        | zero => rfl
        | succ i =>
          simp only [zipWith3, List.length_cons] at h
          simpa [zipWith3] using ih bs cs i (by omega)

theorem zipWith_add_map_mul_zero :
    ∀ (ers err : List ℚ), ers.length ≤ err.length →
      List.zipWith (fun e i => e + i) ers (err.map (fun v => v * 0)) = ers := by
  intro ers
  induction ers with
  | nil => intro err h; simp
  | cons e es ih =>
    intro err h
    cases err with
    | nil => simp at h
    | cons v vs =>
      simp only [List.map_cons, List.zipWith_cons_cons]
      rw [mul_zero, add_zero, ih vs (by simpa using h)]

theorem tanh_lt_one (x : ℝ) : Real.tanh x < 1 := by
  rw [Real.tanh_eq_sinh_div_cosh, div_lt_one (Real.cosh_pos x)]
  nlinarith [Real.cosh_sub_sinh x, Real.exp_pos (-x)]

theorem neg_one_lt_tanh (x : ℝ) : -1 < Real.tanh x := by
  rw [Real.tanh_eq_sinh_div_cosh, lt_div_iff₀ (Real.cosh_pos x)]
  nlinarith [Real.cosh_add_sinh x, Real.exp_pos x]

theorem zipWith3_length {α β γ δ : Type} (f : α → β → γ → δ) :
    ∀ (as : List α) (bs : List β) (cs : List γ),
      (zipWith3 f as bs cs).length = min as.length (min bs.length cs.length) := by
  intro as
  induction as with
  | nil => intro bs cs; simp [zipWith3]
  | cons a as ih =>
    intro bs cs
    cases bs with
    | nil => simp [zipWith3]
    | cons b bs =>
      cases cs with
      | nil => simp [zipWith3]
      | cons c cs =>
        simp only [zipWith3, List.length_cons, ih]
        omega

theorem getD_map_of_lt {α β : Type} (f : α → β) (da : α) (db : β) :
    ∀ (l : List α) (i : ℕ), i < l.length → (l.map f).getD i db = f (l.getD i da) := by
  intro l
  induction l with
  | nil => intro i h; simp at h
  | cons a as ih =>
    intro i h
    cases i with
    | zero => rfl
    | succ i => simpa using ih i (by simpa using h)

theorem normalLogProb_eq_gaussLogDensity (μ σ x : ℝ) (hσ : 0 < σ) :
    normalLogProb μ σ x = gaussLogDensity μ σ x := by
  unfold normalLogProb gaussLogDensity
  have h2π : (0 : ℝ) < 2 * Real.pi := by positivity
  rw [Real.log_sqrt h2π.le, Real.log_mul (ne_of_gt h2π) (by positivity), Real.log_pow]
  push_cast
  ring

theorem sub_corr_lists_eq :
    ∀ (mean std x_t scale : List ℝ), (∀ s ∈ std, 0 < s) →
      zipWith3 (fun lp sc y => lp - Real.log (sc * (1 - y ^ 2) + tanhEps))
        (zipWith3 (fun m s xt => normalLogProb m s xt) mean std x_t) scale
        (x_t.map Real.tanh)
      = List.zipWith (fun d c => d - c)
          (zipWith3 gaussLogDensity mean std x_t)
          (List.zipWith (fun sc xt => Real.log (sc * (1 - Real.tanh xt ^ 2) + tanhEps))
            scale x_t) := by
  intro mean
  induction mean with
  | nil => intro std x_t scale h; simp [zipWith3]
  | cons m ms ih =>
    intro std x_t scale h
    cases std with
    | nil => simp [zipWith3]
    | cons s ss =>
      cases x_t with
      | nil => simp [zipWith3]
      | cons xt xts =>
        cases scale with
        | nil => simp [zipWith3]
        | cons sc scs =>
          simp only [zipWith3, List.map_cons, List.zipWith_cons_cons]
          rw [normalLogProb_eq_gaussLogDensity m s xt (h s (by simp)),
            ih ss xts scs (fun t ht => h t (List.mem_cons_of_mem _ ht))]

/-! ### Claim theorems -/

/-- C5: immediately after engine construction every parameter of the target
critic ensemble equals the corresponding critic parameter exactly, for every
constructor configuration and every random initialization, because
construction copies the critic state dict into the target (line 236). -/
theorem mkEngine_target_eq_critic (c : Persist.Config) (i : Persist.Init) :
    (Persist.mkEngine c i).critic_target = (Persist.mkEngine c i).critic := rfl

/-- C10: after a save/load round trip both training counters hold their
fresh-construction value `0`, for every saved engine, reload configuration and
fresh initialization: `save` deletes `num_timesteps` and `_n_updates` from the
serialized dictionary and `load` never restores them. -/
theorem load_resets_counters (e : Persist.Engine) (c : Persist.Config)
    (i : Persist.Init) :
    (Persist.load (Persist.save e) c i).num_timesteps = 0 ∧
      (Persist.load (Persist.save e) c i).n_updates = 0 := ⟨rfl, rfl⟩

/-- C2: evaluation at a concrete checkpoint whose saved critic parameters
`[7]` differ from the fresh initialization `[0]` drawn at load time: after the
round trip the critic holds the restored parameters, but the target ensemble
keeps the fresh construction values and so differs from the restored critic —
`load` never re-synchronizes `critic_target` after overwriting `critic`. -/
theorem load_target_keeps_fresh_init :
    (Persist.load (Persist.save engine0) config0 init0).critic = engine0.critic ∧
    (Persist.load (Persist.save engine0) config0 init0).critic_target = init0.criticInit ∧
    (Persist.load (Persist.save engine0) config0 init0).critic_target ≠
      (Persist.load (Persist.save engine0) config0 init0).critic := by
  refine ⟨rfl, rfl, ?_⟩
  decide

/-- C7: while the total step count is below the warm-up threshold the chosen
action is exactly the external action-space sample, independent of the policy:
two runs that differ only in the policy (and even in the last observation) but
share the sampling draw choose identical actions. -/
theorem warmup_action_policy_independent (n ls : ℕ) (samp : Act)
    (a1 a2 : ActorFn) (o1 o2 : Obs) (h : n < ls) :
    rolloutAction n ls samp a1 o1 = rolloutAction n ls samp a2 o2 ∧
      (rolloutAction n ls samp a1 o1).1 = samp := by
  simp [rolloutAction, if_pos h]

/-- Witness for C7 at warm-up threshold 100, step 5, sample 3 and two
policies that would play different actions. -/
theorem warmup_action_policy_independent_witness :
    (5 : ℕ) < 100 ∧
      (rolloutAction 5 100 3 (fun _ => (1, 1)) 0 = rolloutAction 5 100 3 (fun _ => (2, 2)) 4 ∧
        (rolloutAction 5 100 3 (fun _ => (1, 1)) 0).1 = 3) :=
  ⟨by norm_num,
    warmup_action_policy_independent 5 100 3 (fun _ => (1, 1)) (fun _ => (2, 2)) 0 4 (by norm_num)⟩

/-- C6: with the intrinsic weighting coefficient `η = 0` the composed reward
equals the extrinsic reward exactly, for every curiosity model and every
aligned batch. -/
theorem calcReward_eta_zero (net : MCNet) (observations : List Obs)
    (actions : List Act) (e_rewards : List ℚ)
    (hoa : observations.length = actions.length)
    (hre : e_rewards.length = observations.length) :
    calcReward net 0 observations actions e_rewards = e_rewards := by
  unfold calcReward
  apply zipWith_add_map_mul_zero
  rw [List.length_zipWith]
  omega

/-- Witness for C6 on a one-sample batch with extrinsic reward 5 and a
curiosity model whose KL term is nonzero. -/
theorem calcReward_eta_zero_witness :
    ([(0 : ℚ)].length = [(0 : ℚ)].length ∧ [(5 : ℚ)].length = [(0 : ℚ)].length) ∧
      calcReward mcnet0 0 [0] [0] [5] = [5] :=
  ⟨⟨rfl, rfl⟩, calcReward_eta_zero mcnet0 [0] [0] [5] rfl rfl⟩

/-- C4: after every training step the target ensemble equals the Polyak blend
of the old target with the post-gradient critic, elementwise
`(1-τ) · t + τ · p`; the equality holds for every external optimizer semantics
`E`, so no gradient step ever writes a target parameter. -/
theorem train_polyak_exact (E : Ext) (C : Cfg) (s : TrainState) (b : Batch) :
    (train E C s b).critic_target =
      polyakUpdate C.tau s.critic_target ((train E C s b).critic) ∧
    ∀ i : ℕ, i < (train E C s b).critic_target.length →
      ((train E C s b).critic_target).getD i 0 =
        (1 - C.tau) * (s.critic_target.getD i 0)
          + C.tau * (((train E C s b).critic).getD i 0) := by
  constructor
  · rfl
  · intro i hi
    have hrw : (train E C s b).critic_target =
        List.zipWith (fun t p => (1 - C.tau) * t + C.tau * p)
          s.critic_target ((train E C s b).critic) := rfl
    rw [hrw] at hi ⊢
    exact zipWith_getD_of_lt _ 0 _ _ i hi

/-- Witness for C4 on the concrete step: `τ = 1/2`, old target `[0]`,
post-gradient critic `[2]`, new target element `1`. -/
theorem train_polyak_exact_witness :
    0 < (train ext0 cfg0 st0 batch0).critic_target.length ∧
      ((train ext0 cfg0 st0 batch0).critic_target).getD 0 0 =
        (1 - cfg0.tau) * (st0.critic_target.getD 0 0)
          + cfg0.tau * (((train ext0 cfg0 st0 batch0).critic).getD 0 0) :=
  ⟨by decide, (train_polyak_exact ext0 cfg0 st0 batch0).2 0 (by decide)⟩

/-- C3 counterexample: at this concrete state the KL term of the curiosity
model at the sampled batch is negative, yet the training step is not aborted
and no error is surfaced: the later stages still run — the composed reward
absorbs the negative term, the update counter advances and the Polyak stage
mutates the target ensemble. -/
theorem train_runs_on_negative_kl :
    listMean (mcnet0.kl (batch0.observations.getD 0 0)
        ((nextStateActions st0 batch0).getD 0 0)) < 0 ∧
    trainRewards ext0 cfg0 st0 batch0 = [-1] ∧
    (train ext0 cfg0 st0 batch0).n_updates = st0.n_updates + 1 ∧
    (train ext0 cfg0 st0 batch0).critic_target ≠ st0.critic_target := by
  refine ⟨?_, ?_, rfl, ?_⟩
  · norm_num [listMean, mcnet0, batch0, st0, nextStateActions]
  · norm_num [trainRewards, calcReward, train_mc, listMean, mcnet0, batch0, st0,
      nextStateActions, ext0, cfg0, zipWith3]
  · norm_num [train, criticAfterStep, critLoss, nextQValue, softValue, entStage,
      nextStateLogPi, nextStateActions, trainRewards, calcReward, train_mc, listMean,
      ensembleMin, polyakUpdate, actorLossOf, zipWith3, mcnet0, batch0, st0, ext0, cfg0]

/-- C3 (amended): the training step performs no finiteness or sign check on
any loss or on the KL divergence: it is a total function that executes every
stage unconditionally for every state and batch — including states whose KL
term is negative — the counter advances, each parameter set receives exactly
its stage update, and the composed reward, whatever its sign, reaches the
bootstrapped target without modification. -/
theorem train_executes_all_stages (E : Ext) (C : Cfg) (s : TrainState) (b : Batch) :
    (train E C s b).n_updates = s.n_updates + 1 ∧
    (train E C s b).mc_network =
      train_mc E s.mc_network b.observations b.next_observations b.actions ∧
    (train E C s b).log_ent_coef = (entStage E C s b).1 ∧
    (train E C s b).critic = criticAfterStep E C s b ∧
    (train E C s b).actor = E.actorStep (actorLossOf E C s b) s.actor ∧
    (train E C s b).critic_target =
      polyakUpdate C.tau s.critic_target (criticAfterStep E C s b) ∧
    nextQValue E C s b = zipWith3 (fun r d v => r + (1 - d) * C.gamma * v)
      (trainRewards E C s b) b.dones (softValue E C s b) :=
  ⟨rfl, rfl, rfl, rfl, rfl, rfl, rfl⟩

/-- C1 counterexample: at this concrete state the stage-3 composed reward of
the training step differs from the same composition evaluated at the next
observations — line 394 passes the current observations of the batch, not the
next observations, to `calc_reward`. -/
theorem train_reward_not_at_next_obs :
    trainRewards ext0 cfg0 st0 batch0 ≠
      calcReward (train_mc ext0 st0.mc_network batch0.observations
          batch0.next_observations batch0.actions)
        cfg0.reward_eta batch0.next_observations (nextStateActions st0 batch0)
        batch0.rewards := by
  norm_num [trainRewards, calcReward, train_mc, listMean, mcnet0, batch0, st0,
    nextStateActions, ext0, cfg0, zipWith3]

/-- C1 (amended): stage 3 folds into the bootstrapped Q-target the composed
reward computed by the same composition as the online call site
(`calcReward`: total = extrinsic + η · mean KL) on the freshly stepped
curiosity model, evaluated at the current observations of the batch — not the
next observations — together with the freshly sampled next actions and the
extrinsic rewards of the batch; per sample the target is
`reward + (1 - done) · γ · soft_value`, for every sampled batch. -/
theorem train_reward_composition (E : Ext) (C : Cfg) (s : TrainState) (b : Batch) :
    trainRewards E C s b =
      calcReward (train_mc E s.mc_network b.observations b.next_observations b.actions)
        C.reward_eta b.observations (nextStateActions s b) b.rewards ∧
    (∀ net eta o a r, rolloutReward net eta o a r = calcReward net eta [o] [a] [r]) ∧
    ∀ j : ℕ, j < (nextQValue E C s b).length →
      (nextQValue E C s b).getD j 0 =
        (trainRewards E C s b).getD j 0 +
          (1 - b.dones.getD j 0) * C.gamma * ((softValue E C s b).getD j 0) := by
  refine ⟨rfl, fun _ _ _ _ _ => rfl, ?_⟩
  intro j hj
  have hrw : nextQValue E C s b = zipWith3 (fun r d v => r + (1 - d) * C.gamma * v)
      (trainRewards E C s b) b.dones (softValue E C s b) := rfl
  rw [hrw] at hj ⊢
  exact zipWith3_getD_of_lt _ 0 _ _ _ j hj

/-- C8: for every observation and noise draw, every action dimension produced
by get_action lies within the declared per-dimension bounds: the tanh-squashed
sample rescaled by `scale = (high - low)/2` and shifted by
`bias = (high + low)/2` cannot leave the box `[low, high]`. -/
theorem get_action_within_bounds (A : Actor) (high low x eps : List ℝ) (i : ℕ)
    (hs : A.action_scale = actionScaleOf high low)
    (hb : A.action_bias = actionBiasOf high low)
    (hil : i < low.length) (hih : i < high.length)
    (hbound : low.getD i 0 ≤ high.getD i 0)
    (hi : i < ((A.get_action x eps).1).length) :
    low.getD i 0 ≤ ((A.get_action x eps).1).getD i 0 ∧
      ((A.get_action x eps).1).getD i 0 ≤ high.getD i 0 := by
  have hact : (A.get_action x eps).1 =
      zipWith3 (fun y sc b => y * sc + b)
        ((zipWith3 (fun m s e => m + s * e) (A.forward x).1
          ((A.forward x).2.map Real.exp) eps).map Real.tanh)
        A.action_scale A.action_bias := rfl
  set x_t := zipWith3 (fun m s e => m + s * e) (A.forward x).1
    ((A.forward x).2.map Real.exp) eps with hxt
  rw [hact] at hi ⊢
  have hlen := zipWith3_length (fun y sc b : ℝ => y * sc + b)
    (x_t.map Real.tanh) A.action_scale A.action_bias
  have hiy : i < x_t.length := by
    rw [hlen] at hi
    have := List.length_map x_t Real.tanh
    omega
  rw [zipWith3_getD_of_lt (fun y sc b => y * sc + b) (0 : ℝ)
    (x_t.map Real.tanh) A.action_scale A.action_bias i hi]
  rw [getD_map_of_lt Real.tanh (0 : ℝ) (0 : ℝ) x_t i hiy]
  have hsl : i < (List.zipWith (fun h l : ℝ => (h - l) / 2) high low).length := by
    rw [List.length_zipWith]; omega
  have hbl : i < (List.zipWith (fun h l : ℝ => (h + l) / 2) high low).length := by
    rw [List.length_zipWith]; omega
  have hsg : A.action_scale.getD i 0 = (high.getD i 0 - low.getD i 0) / 2 := by
    rw [hs]; unfold actionScaleOf
    exact zipWith_getD_of_lt _ 0 high low i hsl
  have hbg : A.action_bias.getD i 0 = (high.getD i 0 + low.getD i 0) / 2 := by
    rw [hb]; unfold actionBiasOf
    exact zipWith_getD_of_lt _ 0 high low i hbl
  simp only [hsg, hbg]
  have ht1 : Real.tanh (x_t.getD i 0) < 1 := tanh_lt_one _
  have ht2 : -1 < Real.tanh (x_t.getD i 0) := neg_one_lt_tanh _
  constructor
  · nlinarith [mul_nonneg (by linarith : (0 : ℝ) ≤ Real.tanh (x_t.getD i 0) + 1)
      (by linarith : (0 : ℝ) ≤ high.getD i 0 - low.getD i 0)]
  · nlinarith [mul_nonneg (by linarith : (0 : ℝ) ≤ 1 - Real.tanh (x_t.getD i 0))
      (by linarith : (0 : ℝ) ≤ high.getD i 0 - low.getD i 0)]

/-- Witness for C8: the all-zero one-dimensional policy on the action box
`[-1, 1]` at observation 0 and noise 0 plays the midpoint, inside the box. -/
theorem get_action_within_bounds_witness :
    [(-1 : ℝ)].getD 0 0 ≤ ((actor0.get_action [0] [0]).1).getD 0 0 ∧
      ((actor0.get_action [0] [0]).1).getD 0 0 ≤ [(1 : ℝ)].getD 0 0 :=
  get_action_within_bounds actor0 [1] [-1] [0] [0] 0 rfl rfl (by norm_num)
    (by norm_num) (by norm_num)
    (by simp [Actor.get_action, Actor.forward, LinearLayer.apply, reluVec, dot,
      clampR, actor0, actionScaleOf, actionBiasOf, zipWith3])

/-- C9: the scalar log-probability returned by get_action equals the Gaussian
log-density of the raw sample minus the tanh change-of-variables correction
`log(scale (1 - tanh(x)²) + ε)` per action dimension, summed across the
action dimensions to one scalar per sample; the correction constant
`ε = 1e-6` is a fixed nonzero constant. -/
theorem get_action_log_prob_correct (A : Actor) (x eps : List ℝ) :
    (A.get_action x eps).2 = specLogProb A x eps ∧ tanhEps ≠ 0 := by
  constructor
  · have h : ∀ s ∈ (A.forward x).2.map Real.exp, 0 < s := by
      intro s hs
      rcases List.mem_map.1 hs with ⟨t, _, rfl⟩
      exact Real.exp_pos t
    exact congrArg List.sum (sub_corr_lists_eq (A.forward x).1
      ((A.forward x).2.map Real.exp)
      (zipWith3 (fun m s e => m + s * e) (A.forward x).1
        ((A.forward x).2.map Real.exp) eps)
      A.action_scale h)
  · unfold tanhEps; norm_num

/-- Witness for C1 (amended) on the concrete one-sample step. -/
theorem train_reward_composition_witness :
    0 < (nextQValue ext0 cfg0 st0 batch0).length ∧
      (nextQValue ext0 cfg0 st0 batch0).getD 0 0 =
        (trainRewards ext0 cfg0 st0 batch0).getD 0 0 +
          (1 - batch0.dones.getD 0 0) * cfg0.gamma *
            ((softValue ext0 cfg0 st0 batch0).getD 0 0) :=
  ⟨by decide, (train_reward_composition ext0 cfg0 st0 batch0).2.2 0 (by decide)⟩

end CleanSacMC
